import Mathlib

/-!
Shallow embedding of the guestbook web application (Go + PostgreSQL):
the entry repository (`AddEntry`, `CountEntries`, `ListEntries` from
`entryrepo.go`), the read path (`ListHandler.ServeHTTP` from
`listhandler.go`) and the write path (`FormHandler.ServeHTTP` from
`formhandler.go`).

The database is modelled as an explicit state (the `entry` table as a
list of rows, an identity counter and a clock for `CURRENT_TIMESTAMP`),
together with fault-injection fields standing for the errors the
`database/sql` driver can surface at each call site (`Exec` failure,
`Query` failure, `Row.Err`, and per-row `Scan` failures).  Go's
multiple-return `(value, error)` idiom is kept as a product with an
`Option String` error component, so that statements such as "returns
nil together with the error" are statable exactly as the code writes
them.
-/

namespace Guestbook

/-- One guestbook entry, from `entry.go`: the row of the `entry` table.
The `posted` timestamp is modelled as a natural number. -/
structure Entry where
  id : Nat
  name : String
  email : String
  message : String
  posted : Nat
deriving DecidableEq, Repr

/-- `const MaxEntriesPerPage = 10` from `entryrepo.go`. -/
def MaxEntriesPerPage : Nat := 10

/-- The database state seen by `EntryRepo`, plus fault injection for the
errors the `database/sql` driver can return at each call site.
`rows` is the `entry` table, `nextId` the identity sequence, `clock` the
value `CURRENT_TIMESTAMP` would assign.  `execErr` is an error from
`db.Exec` in `AddEntry`; `listQueryErr` from `db.Query` in `ListEntries`;
`listScanErr` a `rows.Scan` failure at a given result-row index in
`ListEntries`; `countRowErr` is `row.Err()` and `countScanErr` a
`row.Scan` failure in `CountEntries`. -/
structure DB where
  rows : List Entry
  nextId : Nat
  clock : Nat
  execErr : Option String
  listQueryErr : Option String
  listScanErr : Option (Nat × String)
  countRowErr : Option String
  countScanErr : Option String
deriving DecidableEq, Repr

/-- Model of Go `strings.TrimSpace`: drop whitespace characters from both
ends of the string. -/
def trimSpace (s : String) : String :=
  ⟨((s.data.dropWhile Char.isWhitespace).reverse.dropWhile Char.isWhitespace).reverse⟩

/-- Accumulator loop for a run of decimal digits; fails on the first
non-digit character. -/
def parseDigitsAux : List Char → Nat → Option Nat
  | [], acc => some acc
  | c :: cs, acc =>
    if c.isDigit then parseDigitsAux cs (acc * 10 + (c.toNat - 48)) else none

/-- Model of Go `strconv.Atoi`: an optional sign followed by at least one
decimal digit; anything else is a parse error (`none`). -/
def goAtoi (s : String) : Option Int :=
  match s.data with
  | [] => none
  | ['+'] => none
  | ['-'] => none
  | '+' :: c :: cs => (parseDigitsAux (c :: cs) 0).map (fun n => (n : Int))
  | '-' :: c :: cs => (parseDigitsAux (c :: cs) 0).map (fun n => -(n : Int))
  | cs => (parseDigitsAux cs 0).map (fun n => (n : Int))

/-- `EntryRepo.AddEntry` from `entryrepo.go`:
`INSERT INTO "entry" ("name", "email", "message") VALUES ($1, $2, $3)`.
Only the three fields are supplied; `id` comes from the identity sequence
and `posted` from the column default `CURRENT_TIMESTAMP`.  The `Exec`
error, when any, is returned unchanged and the table is untouched. -/
def AddEntry (db : DB) (name email message : String) : Option String × DB :=
  match db.execErr with
  | some err => (some err, db)
  | none =>
      (none,
        { db with
          rows := db.rows ++ [⟨db.nextId, name, email, message, db.clock⟩]
          nextId := db.nextId + 1 })

/-- The order `ORDER BY posted DESC` sorts by: `a` comes before `b` when
`b.posted ≤ a.posted` (newest first). -/
def postedDesc (a b : Entry) : Prop := b.posted ≤ a.posted

instance : DecidableRel postedDesc :=
  fun a b => inferInstanceAs (Decidable (b.posted ≤ a.posted))

instance : IsTotal Entry postedDesc :=
  ⟨fun a b => Nat.le_total b.posted a.posted⟩

instance : IsTrans Entry postedDesc :=
  ⟨fun _ _ _ hab hbc => Nat.le_trans hbc hab⟩

/-- Model of `ORDER BY posted DESC` on the `entry` table. -/
def sortByPostedDesc (rows : List Entry) : List Entry :=
  List.insertionSort postedDesc rows

/-- Fault injection for the `rows.Scan` call of `ListEntries`: the error
(if any) injected at result-row index `i`. -/
def scanFailMsg (scanErr : Option (Nat × String)) (i : Nat) : Option String :=
  match scanErr with
  | some (j, msg) => if i = j then some msg else none
  | none => none

/-- The `rows.Next()` / `rows.Scan` loop of `ListEntries`: scan each
result row in order, appending to the accumulator; on the first scan
failure return `nil` together with that error, discarding the rows
scanned so far.  `i` is the index of the next result row, used by the
fault injection `scanErr`. -/
def scanRows (scanErr : Option (Nat × String)) :
    Nat → List Entry → List Entry → List Entry × Option String
  | _, acc, [] => (acc, none)
  | i, acc, r :: rs =>
    match scanFailMsg scanErr i with
    | some msg => ([], some msg)
    | none => scanRows scanErr (i + 1) (acc ++ [r]) rs

/-- `EntryRepo.ListEntries` from `entryrepo.go`:
`SELECT ... FROM "entry" ORDER BY posted DESC LIMIT $1 OFFSET $2` with
`LIMIT MaxEntriesPerPage` and `OFFSET (page-1)*MaxEntriesPerPage`,
followed by the scan loop.  A `Query` failure returns `nil` with the
error; PostgreSQL rejects a negative `OFFSET`, which the driver surfaces
as a query error. -/
def ListEntries (db : DB) (page : Int) : List Entry × Option String :=
  match db.listQueryErr with
  | some err => ([], some err)
  | none =>
    if (page - 1) * (MaxEntriesPerPage : Int) < 0 then
      ([], some "pq: OFFSET must not be negative")
    else
      scanRows db.listScanErr 0 []
        (((sortByPostedDesc db.rows).drop
            ((page - 1) * (MaxEntriesPerPage : Int)).toNat).take MaxEntriesPerPage)

/-- `EntryRepo.CountEntries` from `entryrepo.go`:
`SELECT COUNT(*) FROM "entry"`; `row.Err()` and the `Scan` failure each
return `0` with the error, otherwise the row count with `nil`. -/
def CountEntries (db : DB) : Nat × Option String :=
  match db.countRowErr with
  | some err => (0, some err)
  | none =>
    match db.countScanErr with
    | some err => (0, some err)
    | none => (db.rows.length, none)

/-- `int(math.Ceil(float64(totalEntries / MaxEntriesPerPage)))` from
`listhandler.go`.  The inner division is Go integer division; its result
is converted to a rational (modelling the exact `float64` conversion)
before `Ceil` is applied. -/
def goPageCount (totalEntries : Nat) : Nat :=
  (⌈((totalEntries / MaxEntriesPerPage : Nat) : ℚ)⌉).toNat

/-- The page-number loop `for i := 1; i <= pageCount; i++` from
`listhandler.go`, as a function of the loop counter `i`. -/
def pagesFrom (pageCount : Nat) (i : Nat) : List Nat :=
  if i ≤ pageCount then i :: pagesFrom pageCount (i + 1) else []
termination_by pageCount + 1 - i
decreasing_by omega

/-- An HTTP response as the handlers produce it: `http.Error` with a
status and body, `http.Redirect` with a status and location, or a
successful render of the template over its data
(`entries`, `totalEntries`, `page`, `pageNumbers`). -/
inductive Response where
  | err (status : Nat) (body : String)
  | redirect (status : Nat) (location : String)
  | html (entries : List Entry) (totalEntries : Nat) (page : Int)
      (pageNumbers : List Nat)
deriving DecidableEq, Repr

/-- The tail of `ListHandler.ServeHTTP` after the page number is
validated: load the page of entries, count the entries, compute the page
count and page numbers, and render the template. -/
def listLoad (db : DB) (page : Int) : Response :=
  match ListEntries db page with
  | (_, some err) => .err 500 ("Error loading entries: " ++ err)
  | (entries, none) =>
    match CountEntries db with
    | (_, some err) => .err 500 ("Error counting entries: " ++ err)
    | (totalEntries, none) =>
      .html entries totalEntries page (pagesFrom (goPageCount totalEntries) 1)

/-- `ListHandler.ServeHTTP` from `listhandler.go`.  `tmplErr` is the
outcome of parsing the embedded template (`none` = parsed; `some e` = a
parse error, checked before anything else).  `pageQuery` is
`r.FormValue("page")` (`""` when the parameter is missing).  The page
defaults to `1`; a present but unparsable value is a 400; a value below
`1` is a 400; otherwise the entries are loaded. -/
def listHandler (tmplErr : Option String) (db : DB) (pageQuery : String) :
    Response :=
  match tmplErr with
  | some err => .err 500 ("Error parsing template: " ++ err)
  | none =>
    match
      (if trimSpace pageQuery = "" then some 1
       else goAtoi (trimSpace pageQuery)) with
    | none =>
        .err 400 ("Error parsing page parameter: strconv.Atoi: parsing " ++
          trimSpace pageQuery ++ ": invalid syntax")
    | some page =>
      if page < 1 then .err 400 ("Invalid page number " ++ toString page)
      else listLoad db page

/-- `FormHandler.ServeHTTP` from `formhandler.go`: trim the three form
fields; if any is empty respond 400 and stop; otherwise call `AddEntry`
with the trimmed values, responding 500 with the error message on
failure and redirecting to `/` with 302 Found on success. -/
def formHandler (db : DB) (name email message : String) : Response × DB :=
  if trimSpace name = "" ∨ trimSpace email = "" ∨ trimSpace message = "" then
    (.err 400 "name, email and message are required", db)
  else
    match AddEntry db (trimSpace name) (trimSpace email) (trimSpace message) with
    | (some err, db2) => (.err 500 ("Error creating entry: " ++ err), db2)
    | (none, db2) => (.redirect 302 "/", db2)

/-- A sample entry used by the witness theorems. -/
def e1 : Entry := ⟨1, "alice", "alice@example.com", "hello", 5⟩

/-- A sample entry used by the witness theorems. -/
def e2 : Entry := ⟨2, "bob", "bob@example.com", "hi there", 9⟩

/-- A sample entry used by the witness theorems. -/
def e3 : Entry := ⟨3, "carol", "carol@example.com", "welcome", 7⟩

/-- A healthy database state with three entries and no injected fault. -/
def dbOk : DB := ⟨[e1, e2, e3], 4, 100, none, none, none, none, none⟩

/-- A database state whose `Exec` call fails. -/
def dbExecErr : DB :=
  ⟨[e1], 2, 100, some "pq: connection refused", none, none, none, none⟩

/-- A database state whose `ListEntries` scan fails on the first result
row. -/
def dbScanErr : DB :=
  ⟨[e1, e2], 3, 100, none, none, some (0, "sql: Scan error"), none, none⟩

/-- A database state whose `CountEntries` scan fails. -/
def dbCountErr : DB :=
  ⟨[e1], 2, 100, none, none, none, none, some "sql: Scan error on count"⟩

/-! ## Helper lemmas -/

/-- The empty string is a parse error for `strconv.Atoi`. -/
theorem goAtoi_empty : goAtoi "" = none := rfl

/-- With no injected scan fault, the scan loop returns the accumulator
followed by all result rows, with no error. -/
theorem scanRows_none :
    ∀ (rs : List Entry) (i : Nat) (acc : List Entry),
      scanRows none i acc rs = (acc ++ rs, none) := by
  intro rs
  induction rs with
  | nil => intro i acc; simp [scanRows]
  | cons r rs ih =>
      intro i acc
      simp only [scanRows, scanFailMsg]
      rw [ih (i + 1) (acc ++ [r])]
      simp

/-- Whenever the scan loop reports an error, the entry list it returns
is empty. -/
theorem scanRows_err (s : Option (Nat × String)) :
    ∀ (rs : List Entry) (i : Nat) (acc l : List Entry) (e : String),
      scanRows s i acc rs = (l, some e) → l = [] := by
  intro rs
  induction rs with
  | nil => intro i acc l e h; simp [scanRows] at h
  | cons r rs ih =>
      intro i acc l e h
      cases hm : scanFailMsg s i with
      | some msg =>
          rw [scanRows, hm] at h
          injection h with h1 h2
          exact h1.symm
      | none =>
          rw [scanRows, hm] at h
          exact ih (i + 1) (acc ++ [r]) l e h

/-- The sorted table has the same number of rows as the table. -/
theorem sortByPostedDesc_length (rows : List Entry) :
    (sortByPostedDesc rows).length = rows.length :=
  (List.perm_insertionSort postedDesc rows).length_eq

/-- The sorted table is sorted newest-first. -/
theorem sortByPostedDesc_sorted (rows : List Entry) :
    List.Sorted postedDesc (sortByPostedDesc rows) :=
  List.sorted_insertionSort postedDesc rows

/-- `List.range'` with step 1 is strictly increasing. -/
theorem sorted_lt_range' (s n : Nat) :
    List.Sorted (· < ·) (List.range' s n) := by
  induction n generalizing s with
  | zero => simp [List.Sorted]
  | succ n ih =>
      rw [List.range'_succ]
      exact List.Pairwise.cons
        (fun m hm => Nat.lt_of_succ_le (List.mem_range'_1.1 hm).1) (ih (s + 1))

/-- The page-number loop starting at `i` produces the range
`[i, ..., pageCount]`. -/
theorem pagesFrom_eq (pc : Nat) :
    ∀ (n i : Nat), pc + 1 - i = n → pagesFrom pc i = List.range' i n := by
  intro n
  induction n with
  | zero =>
      intro i h
      rw [pagesFrom]
      have hi : ¬ i ≤ pc := by omega
      simp [hi]
  | succ n ih =>
      intro i h
      rw [pagesFrom]
      have hi : i ≤ pc := by omega
      rw [if_pos hi, ih (i + 1) (by omega), List.range'_succ]

/-- The page-number loop starting at 1 produces `[1, ..., pageCount]`. -/
theorem pagesFrom_one (pc : Nat) : pagesFrom pc 1 = List.range' 1 pc :=
  pagesFrom_eq pc pc 1 (by omega)

/-- The page-count computation is plain integer division: the `Ceil` of
an exactly-converted integer quotient is that quotient. -/
theorem goPageCount_eq (totalEntries : Nat) :
    goPageCount totalEntries = totalEntries / MaxEntriesPerPage := by
  unfold goPageCount
  rw [Int.ceil_natCast]
  exact Int.toNat_ofNat _

/-- Pair form of the no-partial-page property of the scan loop, lifted
to `ListEntries`. -/
theorem listEntries_pair_err (db : DB) (page : Int) (l : List Entry)
    (e : String) (h : ListEntries db page = (l, some e)) : l = [] := by
  unfold ListEntries at h
  split at h
  · injection h with h1 h2; exact h1.symm
  · split at h
    · injection h with h1 h2; exact h1.symm
    · exact scanRows_err db.listScanErr _ 0 [] l e h

/-- Pair form of the error behaviour of `CountEntries`. -/
theorem countEntries_pair_err (db : DB) (c : Nat) (e : String)
    (h : CountEntries db = (c, some e)) : c = 0 := by
  unfold CountEntries at h
  split at h
  · injection h with h1 h2; exact h1.symm
  · split at h
    · injection h with h1 h2; exact h1.symm
    · injection h with h1 h2; exact Option.noConfusion h2

/-! ## Claim theorems -/

/-- Claim C1: for every non-negative total entry count, ListHandler's page
count is `floor(totalEntries / 10)` — the integer division is performed
before the float conversion, so the `math.Ceil` call never rounds up — and
the page-number list is exactly `[1, ..., pageCount]` in ascending order;
in particular 10 total entries yield page count 1 and 11 total entries
also yield page count 1, not 2. -/
theorem pageCount_floor_and_pages (totalEntries : Nat) :
    goPageCount totalEntries = totalEntries / MaxEntriesPerPage ∧
    pagesFrom (goPageCount totalEntries) 1 =
      List.range' 1 (totalEntries / MaxEntriesPerPage) ∧
    List.Sorted (· < ·) (pagesFrom (goPageCount totalEntries) 1) ∧
    goPageCount 10 = 1 ∧ goPageCount 11 = 1 := by
  refine ⟨goPageCount_eq _, ?_, ?_, ?_, ?_⟩
  · rw [goPageCount_eq, pagesFrom_one]
  · rw [goPageCount_eq, pagesFrom_one]
    exact sorted_lt_range' 1 _
  · rw [goPageCount_eq]
    decide
  · rw [goPageCount_eq]
    decide

/-- Claim C2: FormHandler trims the three form fields; if any is empty
after trimming it responds 400 "name, email and message are required",
returns with the database untouched (AddEntry is never reached), and the
stored entry set and the total entry count are unchanged. -/
theorem formHandler_blank_rejects (db : DB) (name email message : String)
    (h : trimSpace name = "" ∨ trimSpace email = "" ∨ trimSpace message = "") :
    formHandler db name email message =
      (Response.err 400 "name, email and message are required", db) ∧
    (formHandler db name email message).2.rows = db.rows ∧
    CountEntries (formHandler db name email message).2 = CountEntries db := by
  have h1 : formHandler db name email message =
      (Response.err 400 "name, email and message are required", db) := by
    unfold formHandler
    rw [if_pos h]
  exact ⟨h1, by rw [h1], by rw [h1]⟩

/-- Witness for claim C2 at a whitespace-only name. -/
theorem formHandler_blank_rejects_witness :
    formHandler dbOk "  " "bob@example.com" "hi" =
      (Response.err 400 "name, email and message are required", dbOk) ∧
    (formHandler dbOk "  " "bob@example.com" "hi").2.rows = dbOk.rows ∧
    CountEntries (formHandler dbOk "  " "bob@example.com" "hi").2 =
      CountEntries dbOk :=
  formHandler_blank_rejects dbOk "  " "bob@example.com" "hi"
    (Or.inl (by decide))

/-- Claim C3: with the template parsed, a missing or whitespace-only
`page` parameter defaults the page to 1; a present but non-numeric value
(after trimming) yields a 400 citing the parse failure; a numeric value
below 1 yields a 400; a numeric value of at least 1 proceeds to load the
entries for that page. -/
theorem listHandler_page_param (db : DB) (pageQuery : String) :
    (trimSpace pageQuery = "" →
      listHandler none db pageQuery = listLoad db 1) ∧
    (trimSpace pageQuery ≠ "" → goAtoi (trimSpace pageQuery) = none →
      listHandler none db pageQuery =
        Response.err 400
          ("Error parsing page parameter: strconv.Atoi: parsing " ++
            trimSpace pageQuery ++ ": invalid syntax")) ∧
    (∀ i : Int, goAtoi (trimSpace pageQuery) = some i → i < 1 →
      listHandler none db pageQuery =
        Response.err 400 ("Invalid page number " ++ toString i)) ∧
    (∀ i : Int, goAtoi (trimSpace pageQuery) = some i → 1 ≤ i →
      listHandler none db pageQuery = listLoad db i) := by
  refine ⟨?_, ?_, ?_, ?_⟩
  · intro h
    simp [listHandler, h]
  · intro h1 h2
    simp [listHandler, h1, h2]
  · intro i h hi
    have hne : trimSpace pageQuery ≠ "" := by
      intro he
      rw [he, goAtoi_empty] at h
      exact Option.noConfusion h
    simp [listHandler, hne, h, hi]
  · intro i h hi
    have hne : trimSpace pageQuery ≠ "" := by
      intro he
      rw [he, goAtoi_empty] at h
      exact Option.noConfusion h
    have hnl : ¬ i < 1 := not_lt.2 hi
    simp [listHandler, hne, h, hnl]

/-- Witness for claim C3 at a non-numeric page parameter. -/
theorem listHandler_page_param_witness :
    listHandler none dbOk "abc" =
      Response.err 400
        ("Error parsing page parameter: strconv.Atoi: parsing " ++
          trimSpace "abc" ++ ": invalid syntax") :=
  (listHandler_page_param dbOk "abc").2.1 (by decide) (by decide)

/-- Claim C4: with no storage fault and a page number of at least 1,
ListEntries returns — with no error — exactly the slice of the
posted-descending ordering of the table that skips the first
`(page-1)*10` entries and keeps at most the next 10; in particular the
result has at most `MaxEntriesPerPage = 10` entries and is sorted by
`posted` descending (newest first). -/
theorem listEntries_paging (db : DB) (page : Int)
    (hq : db.listQueryErr = none) (hs : db.listScanErr = none)
    (hp : 1 ≤ page) :
    ListEntries db page =
      (((sortByPostedDesc db.rows).drop
          ((page - 1) * (MaxEntriesPerPage : Int)).toNat).take
        MaxEntriesPerPage, none) ∧
    (ListEntries db page).1.length ≤ MaxEntriesPerPage ∧
    List.Sorted postedDesc (ListEntries db page).1 := by
  have hoff : ¬ (page - 1) * (MaxEntriesPerPage : Int) < 0 := by
    simp only [MaxEntriesPerPage]
    push_cast
    omega
  have h1 : ListEntries db page =
      (((sortByPostedDesc db.rows).drop
          ((page - 1) * (MaxEntriesPerPage : Int)).toNat).take
        MaxEntriesPerPage, none) := by
    unfold ListEntries
    rw [hq, if_neg hoff, hs, scanRows_none]
    simp
  refine ⟨h1, ?_, ?_⟩
  · rw [h1]
    exact List.length_take_le _ _
  · rw [h1]
    exact List.Pairwise.sublist
      ((List.take_sublist _ _).trans (List.drop_sublist _ _))
      (sortByPostedDesc_sorted db.rows)

/-- Witness for claim C4 at page 1 of the three-entry database. -/
theorem listEntries_paging_witness :
    ListEntries dbOk 1 =
      (((sortByPostedDesc dbOk.rows).drop
          ((1 - 1) * (MaxEntriesPerPage : Int)).toNat).take
        MaxEntriesPerPage, none) ∧
    (ListEntries dbOk 1).1.length ≤ MaxEntriesPerPage ∧
    List.Sorted postedDesc (ListEntries dbOk 1).1 :=
  listEntries_paging dbOk 1 rfl rfl (by decide)

/-- Claim C5: with no storage fault, a page whose offset is at or past
the end of the table yields the empty entry list together with no error,
rather than an error. -/
theorem listEntries_beyond_last (db : DB) (page : Int)
    (hq : db.listQueryErr = none) (_hs : db.listScanErr = none)
    (hp : 1 ≤ page)
    (hb : (db.rows.length : Int) ≤ (page - 1) * (MaxEntriesPerPage : Int)) :
    ListEntries db page = ([], none) := by
  have hoff : ¬ (page - 1) * (MaxEntriesPerPage : Int) < 0 := by
    simp only [MaxEntriesPerPage]
    push_cast
    omega
  have hle : db.rows.length ≤ ((page - 1) * (MaxEntriesPerPage : Int)).toNat := by
    simp only [MaxEntriesPerPage] at hb ⊢
    push_cast at hb
    omega
  have hdrop : (sortByPostedDesc db.rows).drop
      ((page - 1) * (MaxEntriesPerPage : Int)).toNat = [] := by
    apply List.drop_eq_nil_of_le
    rw [sortByPostedDesc_length]
    exact hle
  unfold ListEntries
  rw [hq, if_neg hoff, hdrop]
  simp [scanRows]

/-- Witness for claim C5 at page 5 of the three-entry database. -/
theorem listEntries_beyond_last_witness : ListEntries dbOk 5 = ([], none) :=
  listEntries_beyond_last dbOk 5 rfl rfl (by decide) (by decide)

/-- Claim C6: AddEntry inserts exactly one row carrying only the three
supplied fields — the `posted` timestamp comes from the storage engine's
default (`clock`), never from the caller — and a storage error is
returned to the caller unchanged, with no retry and no change to the
table. -/
theorem addEntry_single_row (db : DB) (name email message : String) :
    (db.execErr = none →
      AddEntry db name email message =
        (none,
          { db with
            rows := db.rows ++ [⟨db.nextId, name, email, message, db.clock⟩]
            nextId := db.nextId + 1 })) ∧
    (∀ err, db.execErr = some err →
      AddEntry db name email message = (some err, db)) := by
  constructor
  · intro h
    unfold AddEntry
    rw [h]
  · intro err h
    unfold AddEntry
    rw [h]

/-- Witness for claim C6: a successful insert appends one row whose
timestamp is the database clock. -/
theorem addEntry_single_row_witness :
    AddEntry dbOk "dave" "dave@example.com" "nice book" =
      (none,
        { dbOk with
          rows := dbOk.rows ++
            [⟨dbOk.nextId, "dave", "dave@example.com", "nice book", dbOk.clock⟩]
          nextId := dbOk.nextId + 1 }) :=
  (addEntry_single_row dbOk "dave" "dave@example.com" "nice book").1 rfl

/-- Claim C7: for a valid submission (all three fields non-empty after
trimming) FormHandler calls AddEntry with the trimmed values; on an
AddEntry error it responds 500 with the underlying message in the body,
otherwise it responds 302 Found redirecting to `/`. -/
theorem formHandler_valid_submission (db : DB) (name email message : String)
    (hn : trimSpace name ≠ "") (he : trimSpace email ≠ "")
    (hm : trimSpace message ≠ "") :
    (∀ err db2,
      AddEntry db (trimSpace name) (trimSpace email) (trimSpace message) =
        (some err, db2) →
      formHandler db name email message =
        (Response.err 500 ("Error creating entry: " ++ err), db2)) ∧
    (∀ db2,
      AddEntry db (trimSpace name) (trimSpace email) (trimSpace message) =
        (none, db2) →
      formHandler db name email message = (Response.redirect 302 "/", db2)) := by
  have hcond : ¬ (trimSpace name = "" ∨ trimSpace email = "" ∨
      trimSpace message = "") := by
    push_neg
    exact ⟨hn, he, hm⟩
  constructor
  · intro err db2 h
    unfold formHandler
    rw [if_neg hcond, h]
  · intro db2 h
    unfold formHandler
    rw [if_neg hcond, h]

/-- Witness for claim C7: a successful valid submission redirects to `/`
with the trimmed values inserted. -/
theorem formHandler_valid_submission_witness :
    formHandler dbOk " dave " "dave@example.com" "nice" =
      (Response.redirect 302 "/",
        (AddEntry dbOk (trimSpace " dave ") (trimSpace "dave@example.com")
          (trimSpace "nice")).2) :=
  (formHandler_valid_submission dbOk " dave " "dave@example.com" "nice"
      (by decide) (by decide) (by decide)).2
    (AddEntry dbOk (trimSpace " dave ") (trimSpace "dave@example.com")
      (trimSpace "nice")).2 rfl

/-- Claim C8: the template is parsed before the page parameter is
examined, so a template parse error yields a 500 for every request —
whatever the page parameter is, including non-numeric or below-1 values
that would otherwise be 400s. -/
theorem listHandler_template_err_first (db : DB) (pageQuery err : String) :
    listHandler (some err) db pageQuery =
      Response.err 500 ("Error parsing template: " ++ err) := rfl

/-- Claim C9: ListEntries never returns a partial page: whenever it
returns an error, the entry list it returns alongside is empty (`nil`),
never a non-empty prefix of the successfully scanned rows. -/
theorem listEntries_err_nil (db : DB) (page : Int) (e : String)
    (h : (ListEntries db page).2 = some e) : (ListEntries db page).1 = [] :=
  listEntries_pair_err db page (ListEntries db page).1 e
    (by rw [← h])

/-- Witness for claim C9 at a database whose first result-row scan
fails. -/
theorem listEntries_err_nil_witness :
    (ListEntries dbScanErr 1).2 = some "sql: Scan error" ∧
    (ListEntries dbScanErr 1).1 = [] :=
  ⟨by decide, listEntries_err_nil dbScanErr 1 "sql: Scan error" (by decide)⟩

/-- Claim C10: whenever CountEntries returns an error (query error or
scan failure), the count it returns is 0; a non-zero count therefore
comes only with a nil error. -/
theorem countEntries_zero_on_err (db : DB) (e : String)
    (h : (CountEntries db).2 = some e) : (CountEntries db).1 = 0 :=
  countEntries_pair_err db (CountEntries db).1 e
    (by rw [← h])

/-- Witness for claim C10 at a database whose count scan fails. -/
theorem countEntries_zero_on_err_witness :
    (CountEntries dbCountErr).2 = some "sql: Scan error on count" ∧
    (CountEntries dbCountErr).1 = 0 :=
  ⟨by decide,
    countEntries_zero_on_err dbCountErr "sql: Scan error on count" (by decide)⟩

end Guestbook
